import Mathlib

/-!
Verification of the audio-editor backend (`backend/main.py`).

The backend is a set of HTTP handlers that validate a request, write a
per-request scratch input file, shell out to the external `ffmpeg`
executable, verify output files, and answer with URLs.  The embedding
below models the effectful world through an `Env` oracle: the outcome of
each spawned child process, the filesystem existence/size queries, the
success of the scratch read/write/unlink operations, and the unique-id
generator.  Each HTTP handler becomes a pure function from `Env` and the
request parameters to a `HandlerRun` record holding the HTTP response,
the list of transform commands that were invoked, and the scratch-file
bookkeeping.  Python floats (the time/volume form fields) are modelled
as rationals; the exact decimal rendering of a number inside a command
string is abstracted by `toString`.
-/

namespace AudioEditor

/-- Outcome of one `subprocess.run` invocation: the child completed with
some exit status, the timeout expired, or the spawn itself raised
(e.g. the executable was not found). -/
inductive RunOutcome where
  | completed (returncode : Int)
  | timedOut
  | raised
deriving DecidableEq

/-- Oracle for the effectful world a single request sees.
`probeOutcome` is the result of the `ffmpeg -version` availability probe;
`runOutcome` gives the result of running a transform command with a
timeout; `fileExists`/`fileSize` answer filesystem queries;
`readOk` models whether reading the uploaded bytes succeeds, `writeOk`
whether writing the scratch file succeeds (a write failure still creates
the file, as `open` does), `unlinkOk` whether deleting the scratch file
succeeds; `errMsg` is the text of the Python exception raised by a
failed read/write; `uuid` yields the successive `uuid4` strings a
handler generates. -/
structure Env where
  probeOutcome : RunOutcome
  runOutcome : List String → Nat → RunOutcome
  fileExists : String → Bool
  fileSize : String → Nat
  readOk : Bool
  writeOk : Bool
  unlinkOk : Bool
  errMsg : String
  uuid : Nat → String

/-- `check_ffmpeg`: run `ffmpeg -version` with a 10s timeout and report
whether it exited with status 0; `FileNotFoundError` and
`TimeoutExpired` yield `false`. -/
def check_ffmpeg (env : Env) : Bool :=
  match env.probeOutcome with
  | .completed c => c == 0
  | .timedOut => false
  | .raised => false

/-- Errors `subprocess.run(..., check=True, timeout=t)` can raise. -/
inductive SubprocessErr where
  | calledProcessError (returncode : Int)
  | timeoutExpired
  | other
deriving DecidableEq

/-- `subprocess.run(command, check=True, timeout=t)`: with `check=True`
a completed child with non-zero status raises `CalledProcessError`, a
timeout raises `TimeoutExpired`, any other failure is a generic
exception. -/
def subprocessRunCheck (o : RunOutcome) : Except SubprocessErr Unit :=
  match o with
  | .completed c => if c = 0 then .ok () else .error (.calledProcessError c)
  | .timedOut => .error .timeoutExpired
  | .raised => .error .other

/-- `run_ffmpeg_command(command, timeout)`: run the command and return a
Boolean success flag; `CalledProcessError`, `TimeoutExpired` and every
other exception are caught and yield `False`. -/
def run_ffmpeg_command (env : Env) (command : List String) (timeout : Nat) : Bool :=
  match subprocessRunCheck (env.runOutcome command timeout) with
  | .ok _ => true
  | .error (.calledProcessError _) => false
  | .error .timeoutExpired => false
  | .error .other => false

/-- `get_quality_settings(format_type, quality)`: the quality-tier table
mapping a format and tier to ffmpeg codec parameters. -/
def get_quality_settings (format_type quality : String) : List String :=
  if format_type = "mp3" then
    (([("high", ["-b:a", "320k"]),
       ("medium", ["-b:a", "192k"]),
       ("low", ["-b:a", "128k"])] : List (String × List String)).lookup quality).getD
      ["-b:a", "192k"]
  else if format_type = "wav" then
    ["-acodec", "pcm_s16le"]
  else
    []

/-- Python `str.replace` semantics over character lists: scan left to
right, replacing each non-overlapping occurrence of the pattern
`o :: os` by `new` and continuing after the replaced occurrence.  The
`fuel` argument only forces structural termination: every step consumes
at least one character of the scanned list, so any `fuel` of at least
the list's length yields the untruncated scan (the `0, s => s` arm is
then unreachable). -/
def replaceLoop (o : Char) (os new : List Char) : Nat → List Char → List Char
  | _, [] => []
  | 0, s => s
  | fuel + 1, c :: cs =>
    if (o :: os).isPrefixOf (c :: cs) then
      new ++ replaceLoop o os new fuel (cs.drop os.length)
    else
      c :: replaceLoop o os new fuel cs

/-- Python `s.replace(old, new)` for a non-empty pattern `old`: every
occurrence of `old` anywhere in `s` is replaced by `new`.  (For the
degenerate empty pattern, which the backend never uses, we return `s`
unchanged.) -/
def pyReplace (s old new : String) : String :=
  match old.data with
  | [] => s
  | o :: os => ⟨replaceLoop o os new.data s.data.length s.data⟩

/-- Whether the non-empty pattern `o :: os` occurs as a contiguous
sublist of `s`. -/
def hasOccur (o : Char) (os : List Char) : List Char → Bool
  | [] => false
  | c :: cs => (o :: os).isPrefixOf (c :: cs) || hasOccur o os cs

/-- `hasOccur` lifted to strings (`true` vacuously for an empty pattern,
which never arises here). -/
def hasOccurS (old s : String) : Bool :=
  match old.data with
  | [] => true
  | o :: os => hasOccur o os s.data

/-- The URL-to-local-path resolution the export handlers perform:
`track.url.replace("/uploads/", "uploads/").replace("/outputs/", "outputs/")`. -/
def track_path_of_url (url : String) : String :=
  pyReplace (pyReplace url "/uploads/" "uploads/") "/outputs/" "outputs/"

/-- Resolution as the specification describes it: recognise which of the
two static mount prefixes the URL starts with, substitute the
corresponding local directory, and leave the rest of the URL unchanged
(`none` when the URL starts with neither mount prefix).  This definition
follows the spec's words; it is compared against `track_path_of_url`,
which is translated from the source. -/
def specPrefixResolve (url : String) : Option String :=
  if "/uploads/".data.isPrefixOf url.data then some ("uploads/" ++ ⟨url.data.drop 9⟩)
  else if "/outputs/".data.isPrefixOf url.data then some ("outputs/" ++ ⟨url.data.drop 9⟩)
  else none

/-- `TrackData`: the client-declared track parameter object. -/
structure TrackData where
  id : String
  url : String
  volume : ℚ
  muted : Bool := false
  solo : Bool := false
deriving DecidableEq

/-- An HTTP response: a JSON object of string fields on success, or an
`HTTPException` with a status code and detail message. -/
inductive Resp where
  | ok (fields : List (String × String))
  | err (status : Nat) (detail : String)
deriving DecidableEq

/-- Whether a response is a success response. -/
def Resp.isOk : Resp → Bool
  | .ok _ => true
  | .err _ _ => false

/-- The HTTP status code of a response (200 on success). -/
def Resp.status : Resp → Nat
  | .ok _ => 200
  | .err s _ => s

/-- Observable result of one handler invocation: the response, the
transform commands passed to `run_ffmpeg_command` in order, whether the
per-request scratch input file was created, whether it still exists when
the handler returns, and the paths the handler itself deleted. -/
structure HandlerRun where
  resp : Resp
  invoked : List (List String)
  scratchCreated : Bool
  scratchAtReturn : Bool
  deleted : List String

/-- The scratch input path `temp/input_{uuid}{ext}` every upload-based
transformation handler writes. -/
def tempInputName (env : Env) (fileExt : String) : String :=
  "temp/input_" ++ env.uuid 0 ++ fileExt

/-- The engine-unavailable error every transformation handler raises
when the availability probe fails. -/
def engineUnavailable : Resp :=
  Resp.err 500 "FFmpeg is not available. Please install FFmpeg."

/-- Body of the `/cut` handler (everything before the `finally` block):
availability probe, time validation, scratch write, one trim command,
output verification.  Returns the response, the invoked commands and
whether the scratch file was created. -/
def cutCore (env : Env) (fileExt : String) (start_time end_time : ℚ) :
    Resp × List (List String) × Bool :=
  if check_ffmpeg env = false then
    (engineUnavailable, [], false)
  else if start_time ≥ end_time then
    (.err 400 "Start time must be less than end time", [], false)
  else if start_time < 0 then
    (.err 400 "Start time cannot be negative", [], false)
  else if env.readOk = false then
    (.err 500 ("Cut operation failed: " ++ env.errMsg), [], false)
  else if env.writeOk = false then
    (.err 500 ("Cut operation failed: " ++ env.errMsg), [], true)
  else
    let temp_input := tempInputName env fileExt
    let output_filename := "cut_" ++ env.uuid 1 ++ ".wav"
    let output_path := "outputs/" ++ output_filename
    let duration := end_time - start_time
    let command := ["ffmpeg", "-i", temp_input,
      "-ss", toString start_time,
      "-t", toString duration,
      "-acodec", "pcm_s16le",
      "-ar", "44100",
      "-ac", "2",
      "-y", output_path]
    if run_ffmpeg_command env command 120 = false then
      (.err 500 "Failed to cut audio. Please check the audio file format.", [command], true)
    else if env.fileExists output_path = false ∨ env.fileSize output_path = 0 then
      (.err 500 "Cut operation produced empty file", [command], true)
    else
      (.ok [("url", "/outputs/" ++ output_filename)], [command], true)

/-- The `finally` block shared by the upload-based handlers: if the
scratch file exists it is unlinked, and an unlink failure is logged and
swallowed. -/
def finallyCleanup (env : Env) (fileExt : String) (r : Resp × List (List String) × Bool) :
    HandlerRun :=
  { resp := r.1
    invoked := r.2.1
    scratchCreated := r.2.2
    scratchAtReturn := r.2.2 && !env.unlinkOk
    deleted := if r.2.2 && env.unlinkOk then [tempInputName env fileExt] else [] }

/-- The `/cut` handler: `cutCore` wrapped in the scratch-cleanup
`finally` block. -/
def cut_audio (env : Env) (fileExt : String) (start_time end_time : ℚ) : HandlerRun :=
  finallyCleanup env fileExt (cutCore env fileExt start_time end_time)

/-- Body of the `/fade` handler: availability probe, fade-type and
duration validation, scratch write, one fade-filter command, output
verification. -/
def fadeCore (env : Env) (fileExt fade_type : String) (duration : ℚ) :
    Resp × List (List String) × Bool :=
  if check_ffmpeg env = false then
    (engineUnavailable, [], false)
  else if ¬(fade_type = "in" ∨ fade_type = "out") then
    (.err 400 "Fade type must be 'in' or 'out'", [], false)
  else if duration ≤ 0 then
    (.err 400 "Fade duration must be positive", [], false)
  else if env.readOk = false then
    (.err 500 ("Fade operation failed: " ++ env.errMsg), [], false)
  else if env.writeOk = false then
    (.err 500 ("Fade operation failed: " ++ env.errMsg), [], true)
  else
    let temp_input := tempInputName env fileExt
    let output_filename := "fade_" ++ fade_type ++ "_" ++ env.uuid 1 ++ ".wav"
    let output_path := "outputs/" ++ output_filename
    let fade_filter :=
      if fade_type = "in" then "afade=t=in:d=" ++ toString duration
      else "afade=t=out:d=" ++ toString duration
    let command := ["ffmpeg", "-i", temp_input,
      "-af", fade_filter,
      "-acodec", "pcm_s16le",
      "-ar", "44100",
      "-ac", "2",
      "-y", output_path]
    if run_ffmpeg_command env command 120 = false then
      (.err 500 "Failed to apply fade effect", [command], true)
    else if env.fileExists output_path = false ∨ env.fileSize output_path = 0 then
      (.err 500 "Fade operation produced empty file", [command], true)
    else
      (.ok [("url", "/outputs/" ++ output_filename)], [command], true)

/-- The `/fade` handler. -/
def apply_fade (env : Env) (fileExt fade_type : String) (duration : ℚ) : HandlerRun :=
  finallyCleanup env fileExt (fadeCore env fileExt fade_type duration)

/-- Body of the `/separate/vocal-music` handler: scratch write, two
commands (centre-channel extraction and stereo pass-through), success of
both required, then an existence-only verification of the two outputs. -/
def vocalMusicCore (env : Env) (fileExt : String) :
    Resp × List (List String) × Bool :=
  if check_ffmpeg env = false then
    (engineUnavailable, [], false)
  else if env.readOk = false then
    (.err 500 ("Separation failed: " ++ env.errMsg), [], false)
  else if env.writeOk = false then
    (.err 500 ("Separation failed: " ++ env.errMsg), [], true)
  else
    let temp_input := tempInputName env fileExt
    let vocal_filename := "vocal_" ++ env.uuid 1 ++ ".wav"
    let music_filename := "music_" ++ env.uuid 2 ++ ".wav"
    let vocal_path := "outputs/" ++ vocal_filename
    let music_path := "outputs/" ++ music_filename
    let vocal_command := ["ffmpeg", "-i", temp_input,
      "-af", "pan=mono|c0=0.5*c0+-0.5*c1",
      "-acodec", "pcm_s16le",
      "-ar", "44100",
      "-y", vocal_path]
    let music_command := ["ffmpeg", "-i", temp_input,
      "-af", "pan=stereo|c0=c0|c1=c1",
      "-acodec", "pcm_s16le",
      "-ar", "44100",
      "-ac", "2",
      "-y", music_path]
    let vocal_success := run_ffmpeg_command env vocal_command 180
    let music_success := run_ffmpeg_command env music_command 180
    let invoked := [vocal_command, music_command]
    if ¬(vocal_success = true ∧ music_success = true) then
      (.err 500 "Failed to separate audio tracks", invoked, true)
    else if env.fileExists vocal_path = false ∨ env.fileExists music_path = false then
      (.err 500 "Separation produced empty files", invoked, true)
    else
      (.ok [("vocal", "/outputs/" ++ vocal_filename),
            ("music", "/outputs/" ++ music_filename)], invoked, true)

/-- The `/separate/vocal-music` handler. -/
def separate_vocal_music (env : Env) (fileExt : String) : HandlerRun :=
  finallyCleanup env fileExt (vocalMusicCore env fileExt)

/-- The four band-filter commands of the `/separate/instruments`
handler, in the order the handler attempts them. -/
def instrumentsCommands (env : Env) (fileExt : String) : List (List String) :=
  let temp_input := tempInputName env fileExt
  [["ffmpeg", "-i", temp_input,
    "-af", "highpass=f=200,lowpass=f=3000",
    "-acodec", "pcm_s16le", "-ar", "44100", "-ac", "2",
    "-y", "outputs/vocals_" ++ env.uuid 1 ++ ".wav"],
   ["ffmpeg", "-i", temp_input,
    "-af", "highpass=f=1000",
    "-acodec", "pcm_s16le", "-ar", "44100", "-ac", "2",
    "-y", "outputs/drums_" ++ env.uuid 2 ++ ".wav"],
   ["ffmpeg", "-i", temp_input,
    "-af", "lowpass=f=250",
    "-acodec", "pcm_s16le", "-ar", "44100", "-ac", "2",
    "-y", "outputs/bass_" ++ env.uuid 3 ++ ".wav"],
   ["ffmpeg", "-i", temp_input,
    "-af", "highpass=f=250,lowpass=f=1000",
    "-acodec", "pcm_s16le", "-ar", "44100", "-ac", "2",
    "-y", "outputs/other_" ++ env.uuid 4 ++ ".wav"]]

/-- Body of the `/separate/instruments` handler: all four band commands
are run in order (the loop continues past failures), successes are
counted, and the operation fails unless all four succeeded.  No output
file is verified. -/
def instrumentsCore (env : Env) (fileExt : String) :
    Resp × List (List String) × Bool :=
  if check_ffmpeg env = false then
    (engineUnavailable, [], false)
  else if env.readOk = false then
    (.err 500 ("Instrument separation failed: " ++ env.errMsg), [], false)
  else if env.writeOk = false then
    (.err 500 ("Instrument separation failed: " ++ env.errMsg), [], true)
  else
    let commands := instrumentsCommands env fileExt
    let success_count :=
      commands.foldl (fun n cmd => if run_ffmpeg_command env cmd 180 then n + 1 else n) 0
    if success_count < 4 then
      (.err 500 "Failed to separate some instruments", commands, true)
    else
      (.ok [("vocals", "/outputs/vocals_" ++ env.uuid 1 ++ ".wav"),
            ("drums", "/outputs/drums_" ++ env.uuid 2 ++ ".wav"),
            ("bass", "/outputs/bass_" ++ env.uuid 3 ++ ".wav"),
            ("other", "/outputs/other_" ++ env.uuid 4 ++ ".wav")], commands, true)

/-- The `/separate/instruments` handler. -/
def separate_instruments (env : Env) (fileExt : String) : HandlerRun :=
  finallyCleanup env fileExt (instrumentsCore env fileExt)

/-- The solo tracks of a request: `[t for t in tracks if t.solo]`. -/
def soloTracks (tracks : List TrackData) : List TrackData :=
  tracks.filter (fun t => t.solo)

/-- The active track set of an export-mix request: the solo tracks if
any exist, otherwise the non-muted tracks. -/
def activeTracks (tracks : List TrackData) : List TrackData :=
  if (soloTracks tracks).isEmpty then tracks.filter (fun t => !t.muted) else soloTracks tracks

/-- The `/export/mix` handler: compute the active track set, reject an
empty set, resolve the first active track's URL, require the source to
exist, run one volume-filter command with the quality settings, verify
the output.  Export handlers create no scratch file. -/
def export_mix (env : Env) (tracks : List TrackData) (format quality : String) :
    HandlerRun :=
  let resp : Resp :=
    if check_ffmpeg env = false then
      engineUnavailable
    else
      match activeTracks tracks with
      | [] => .err 400 "No active tracks to export"
      | track :: _ =>
        let output_filename := "mix_" ++ env.uuid 0 ++ "." ++ format
        let output_path := "outputs/" ++ output_filename
        let track_path := track_path_of_url track.url
        if env.fileExists track_path = false then
          .err 404 "Source track file not found"
        else
          let volume_filter := "volume=" ++ toString track.volume
          let quality_settings := get_quality_settings format quality
          let command := ["ffmpeg", "-i", track_path, "-af", volume_filter] ++
            quality_settings ++ ["-y", output_path]
          if run_ffmpeg_command env command 180 = false then
            .err 500 "Failed to export mix"
          else if env.fileExists output_path = false ∨ env.fileSize output_path = 0 then
            .err 500 "Export produced empty file"
          else
            .ok [("url", "/outputs/" ++ output_filename)]
  let invoked : List (List String) :=
    if check_ffmpeg env = false then []
    else
      match activeTracks tracks with
      | [] => []
      | track :: _ =>
        let track_path := track_path_of_url track.url
        if env.fileExists track_path = false then []
        else
          [["ffmpeg", "-i", track_path, "-af", "volume=" ++ toString track.volume] ++
            get_quality_settings format quality ++
            ["-y", "outputs/mix_" ++ env.uuid 0 ++ "." ++ format]]
  { resp := resp, invoked := invoked, scratchCreated := false,
    scratchAtReturn := false, deleted := [] }

/-- The `/export/track` handler: resolve the track's URL, require the
source to exist, run one volume-filter command with the quality
settings, verify the output. -/
def export_track (env : Env) (track : TrackData) (format quality : String) :
    HandlerRun :=
  let track_path := track_path_of_url track.url
  let output_filename := "track_" ++ env.uuid 0 ++ "." ++ format
  let output_path := "outputs/" ++ output_filename
  let command := ["ffmpeg", "-i", track_path, "-af", "volume=" ++ toString track.volume] ++
    get_quality_settings format quality ++ ["-y", output_path]
  let resp : Resp :=
    if check_ffmpeg env = false then
      engineUnavailable
    else if env.fileExists track_path = false then
      .err 404 "Source track file not found"
    else if run_ffmpeg_command env command 180 = false then
      .err 500 "Failed to export track"
    else if env.fileExists output_path = false ∨ env.fileSize output_path = 0 then
      .err 500 "Export produced empty file"
    else
      .ok [("url", "/outputs/" ++ output_filename)]
  let invoked : List (List String) :=
    if check_ffmpeg env = false then []
    else if env.fileExists track_path = false then []
    else [command]
  { resp := resp, invoked := invoked, scratchCreated := false,
    scratchAtReturn := false, deleted := [] }

/-- A world in which the probe succeeds, every transform command exits
with status 0, every queried file exists with size 5, and scratch I/O
succeeds. -/
def envAllGood : Env :=
  { probeOutcome := .completed 0
    runOutcome := fun _ _ => .completed 0
    fileExists := fun _ => true
    fileSize := fun _ => 5
    readOk := true
    writeOk := true
    unlinkOk := true
    errMsg := "io"
    uuid := fun _ => "u" }

/-- A world in which every command succeeds but no file exists on disk
and every size query answers 0. -/
def envNoFiles : Env :=
  { probeOutcome := .completed 0
    runOutcome := fun _ _ => .completed 0
    fileExists := fun _ => false
    fileSize := fun _ => 0
    readOk := true
    writeOk := true
    unlinkOk := true
    errMsg := "io"
    uuid := fun _ => "u" }

/-- A world in which the ffmpeg executable is missing: the probe and
every command raise. -/
def envNoFfmpeg : Env :=
  { probeOutcome := .raised
    runOutcome := fun _ _ => .raised
    fileExists := fun _ => false
    fileSize := fun _ => 0
    readOk := true
    writeOk := true
    unlinkOk := true
    errMsg := "io"
    uuid := fun _ => "u" }

/-- C7: for every argument list and timeout the transform invoker
`run_ffmpeg_command` returns a Boolean and never raises (it is a total
function into `Bool`); it returns `true` exactly when the child process
completed with exit status 0 within the timeout, and `false` on a
non-zero exit, on a timeout, and on any other execution exception. -/
theorem C7_run_ffmpeg_command_true_iff_exit_zero
    (env : Env) (command : List String) (timeout : Nat) :
    run_ffmpeg_command env command timeout = true ↔
      env.runOutcome command timeout = RunOutcome.completed 0 := by
  unfold run_ffmpeg_command subprocessRunCheck
  cases h : env.runOutcome command timeout with
  | completed c =>
    by_cases hc : c = 0 <;> simp [hc]
  | timedOut => simp
  | raised => simp

/-- C8: the quality-settings table maps (mp3, high) to a 320k bitrate,
(mp3, medium) to 192k, (mp3, low) to 128k, (mp3, any other tier) to the
192k default, and (wav, any tier) to 16-bit signed PCM with the tier
ignored. -/
theorem C8_quality_settings_table :
    get_quality_settings "mp3" "high" = ["-b:a", "320k"] ∧
    get_quality_settings "mp3" "medium" = ["-b:a", "192k"] ∧
    get_quality_settings "mp3" "low" = ["-b:a", "128k"] ∧
    (∀ quality : String, quality ≠ "high" → quality ≠ "medium" → quality ≠ "low" →
      get_quality_settings "mp3" quality = ["-b:a", "192k"]) ∧
    (∀ quality : String, get_quality_settings "wav" quality = ["-acodec", "pcm_s16le"]) := by
  refine ⟨rfl, rfl, rfl, ?_, ?_⟩
  · intro q h1 h2 h3
    have b1 : (q == "high") = false := beq_eq_false_iff_ne.mpr h1
    have b2 : (q == "medium") = false := beq_eq_false_iff_ne.mpr h2
    have b3 : (q == "low") = false := beq_eq_false_iff_ne.mpr h3
    simp [get_quality_settings, List.lookup, b1, b2, b3]
  · intro q
    rfl

/-- Witness for C8 at the concrete unrecognized tier "ultra". -/
theorem C8_quality_settings_table_witness :
    ("ultra" : String) ≠ "high" ∧ get_quality_settings "mp3" "ultra" = ["-b:a", "192k"] :=
  ⟨by decide, C8_quality_settings_table.2.2.2.1 "ultra" (by decide) (by decide) (by decide)⟩

/-- C2: for every upload-based transformation handler (cut, fade,
vocal/music split, 4-band split) and every world — hence on every exit
path: validation failure, invoker failure, unexpected exception, or
normal return — if the scratch-file deletion succeeds the per-request
scratch input file no longer exists when the handler returns, and the
response is unchanged by whether the deletion succeeds or fails (a
deletion failure is swallowed). -/
theorem C2_scratch_cleanup (env : Env) (b : Bool) (fileExt fade_type : String)
    (s e d : ℚ) :
    (env.unlinkOk = true →
      (cut_audio env fileExt s e).scratchAtReturn = false ∧
      (apply_fade env fileExt fade_type d).scratchAtReturn = false ∧
      (separate_vocal_music env fileExt).scratchAtReturn = false ∧
      (separate_instruments env fileExt).scratchAtReturn = false) ∧
    ((cut_audio { env with unlinkOk := b } fileExt s e).resp =
        (cut_audio env fileExt s e).resp ∧
     (apply_fade { env with unlinkOk := b } fileExt fade_type d).resp =
        (apply_fade env fileExt fade_type d).resp ∧
     (separate_vocal_music { env with unlinkOk := b } fileExt).resp =
        (separate_vocal_music env fileExt).resp ∧
     (separate_instruments { env with unlinkOk := b } fileExt).resp =
        (separate_instruments env fileExt).resp) := by
  constructor
  · intro h
    refine ⟨?_, ?_, ?_, ?_⟩ <;>
      simp [cut_audio, apply_fade, separate_vocal_music, separate_instruments,
        finallyCleanup, h]
  · exact ⟨rfl, rfl, rfl, rfl⟩

/-- Witness for C2 in a concrete world with a working deletion. -/
theorem C2_scratch_cleanup_witness :
    envAllGood.unlinkOk = true ∧
      (cut_audio envAllGood ".wav" 0 1).scratchAtReturn = false :=
  ⟨rfl, ((C2_scratch_cleanup envAllGood true ".wav" "in" 0 1 1).1 rfl).1⟩

/-- C9: when the availability probe fails, every transformation handler
(cut, fade, vocal/music split, 4-band split, export mix, export track)
returns the distinct engine-unavailable 500 error, invokes no transform
command, and creates no scratch file (so no file is written for the
request). -/
theorem C9_engine_unavailable (env : Env)
    (fileExt fade_type format quality : String) (s e d : ℚ)
    (tracks : List TrackData) (track : TrackData)
    (h : check_ffmpeg env = false) :
    ((cut_audio env fileExt s e).resp = engineUnavailable ∧
     (cut_audio env fileExt s e).invoked = [] ∧
     (cut_audio env fileExt s e).scratchCreated = false) ∧
    ((apply_fade env fileExt fade_type d).resp = engineUnavailable ∧
     (apply_fade env fileExt fade_type d).invoked = [] ∧
     (apply_fade env fileExt fade_type d).scratchCreated = false) ∧
    ((separate_vocal_music env fileExt).resp = engineUnavailable ∧
     (separate_vocal_music env fileExt).invoked = [] ∧
     (separate_vocal_music env fileExt).scratchCreated = false) ∧
    ((separate_instruments env fileExt).resp = engineUnavailable ∧
     (separate_instruments env fileExt).invoked = [] ∧
     (separate_instruments env fileExt).scratchCreated = false) ∧
    ((export_mix env tracks format quality).resp = engineUnavailable ∧
     (export_mix env tracks format quality).invoked = [] ∧
     (export_mix env tracks format quality).scratchCreated = false) ∧
    ((export_track env track format quality).resp = engineUnavailable ∧
     (export_track env track format quality).invoked = [] ∧
     (export_track env track format quality).scratchCreated = false) := by
  refine ⟨⟨?_, ?_, ?_⟩, ⟨?_, ?_, ?_⟩, ⟨?_, ?_, ?_⟩, ⟨?_, ?_, ?_⟩,
    ⟨?_, ?_, ?_⟩, ⟨?_, ?_, ?_⟩⟩ <;>
    simp [cut_audio, cutCore, apply_fade, fadeCore, separate_vocal_music,
      vocalMusicCore, separate_instruments, instrumentsCore, export_mix,
      export_track, finallyCleanup, h]

/-- Witness for C9 in the concrete world where ffmpeg is missing. -/
theorem C9_engine_unavailable_witness :
    check_ffmpeg envNoFfmpeg = false ∧
      (cut_audio envNoFfmpeg ".wav" 0 1).resp = engineUnavailable :=
  ⟨rfl,
    (C9_engine_unavailable envNoFfmpeg ".wav" "in" "mp3" "high" 0 1 1 []
      ⟨"t", "/uploads/a.wav", 1, false, false⟩ rfl).1.1⟩

/-- C4 counterexample: a cut request with `start_time = 1 ≥ 0 = end_time`
(so the claim's premise holds) in a world where the availability probe
fails is answered with the 500 engine-unavailable error, not with an
HTTP 400 client error: the availability check runs before the time
validation. -/
theorem C4_counterexample :
    (1 : ℚ) ≥ (0 : ℚ) ∧
    (cut_audio envNoFfmpeg ".wav" 1 0).resp = engineUnavailable ∧
    (cut_audio envNoFfmpeg ".wav" 1 0).resp.status = 500 ∧
    (cut_audio envNoFfmpeg ".wav" 1 0).resp.status ≠ 400 := by
  refine ⟨by norm_num, rfl, rfl, by decide⟩

/-- C4 as amended: provided the availability probe succeeds, every cut
request with `start_time ≥ end_time` or `start_time < 0` is rejected
with an HTTP 400 client error, no transform command is run and no
scratch file is created; when the probe fails the handler instead
returns the 500 engine-unavailable error first (still without running
any transform command).  The probe itself does spawn its
`ffmpeg -version` child process in both cases. -/
theorem C4_cut_validation (env : Env) (fileExt : String) (s e : ℚ) :
    (check_ffmpeg env = true → (s ≥ e ∨ s < 0) →
      (cut_audio env fileExt s e).resp.status = 400 ∧
      (cut_audio env fileExt s e).invoked = [] ∧
      (cut_audio env fileExt s e).scratchCreated = false) ∧
    (check_ffmpeg env = false →
      (cut_audio env fileExt s e).resp.status = 500 ∧
      (cut_audio env fileExt s e).invoked = []) := by
  constructor
  · intro h1 h2
    have hni : ¬(check_ffmpeg env = false) := by simp [h1]
    by_cases hge : s ≥ e
    · simp [cut_audio, cutCore, finallyCleanup, hni, hge, Resp.status]
    · have hs0 : s < 0 := by
        rcases h2 with h | h
        · exact absurd h hge
        · exact h
      simp [cut_audio, cutCore, finallyCleanup, hni, hge, hs0, Resp.status]
  · intro h
    simp [cut_audio, cutCore, finallyCleanup, h, engineUnavailable, Resp.status]

/-- Witness for the amended C4: with the probe succeeding and
`start_time = 1 ≥ 0 = end_time` the cut request gets HTTP 400. -/
theorem C4_cut_validation_witness :
    check_ffmpeg envAllGood = true ∧
      (cut_audio envAllGood ".wav" 1 0).resp.status = 400 :=
  ⟨rfl, ((C4_cut_validation envAllGood ".wav" 1 0).1 rfl (Or.inl (by norm_num))).1⟩

/-- A concrete non-muted, non-solo track used by the witnesses. -/
def trackA : TrackData :=
  { id := "a", url := "/uploads/a.wav", volume := 1 }

/-- C5: for every export-mix request the active track set is all solo
tracks when a solo track exists and all non-muted tracks otherwise; an
empty active set is rejected with an HTTP 400 client error; otherwise
exactly one transform command is run, on the first active track in input
order, with a volume filter equal to that track's volume multiplier. -/
theorem C5_export_mix_active_tracks (env : Env) (tracks : List TrackData)
    (format quality : String) (h : check_ffmpeg env = true) :
    ((∃ t ∈ tracks, t.solo = true) →
      activeTracks tracks = tracks.filter (fun t => t.solo)) ∧
    ((∀ t ∈ tracks, t.solo = false) →
      activeTracks tracks = tracks.filter (fun t => !t.muted)) ∧
    (activeTracks tracks = [] →
      (export_mix env tracks format quality).resp =
        Resp.err 400 "No active tracks to export") ∧
    (∀ t ts, activeTracks tracks = t :: ts →
      env.fileExists (track_path_of_url t.url) = true →
      (export_mix env tracks format quality).invoked =
        [["ffmpeg", "-i", track_path_of_url t.url, "-af",
            "volume=" ++ toString t.volume] ++
          get_quality_settings format quality ++
          ["-y", "outputs/mix_" ++ env.uuid 0 ++ "." ++ format]]) := by
  have hni : ¬(check_ffmpeg env = false) := by simp [h]
  refine ⟨?_, ?_, ?_, ?_⟩
  · rintro ⟨t, ht, hsolo⟩
    have hmem : t ∈ soloTracks tracks := by
      simp [soloTracks, List.mem_filter, ht, hsolo]
    have hne : soloTracks tracks ≠ [] := List.ne_nil_of_mem hmem
    simp [activeTracks, soloTracks] at hne ⊢
    simp [List.isEmpty_iff, hne]
  · intro hall
    have hnil : soloTracks tracks = [] := by
      simp [soloTracks, List.filter_eq_nil_iff]
      intro t ht
      simp [hall t ht]
    simp [activeTracks, hnil]
  · intro hact
    simp [export_mix, hni, hact]
  · intro t ts hact hfe
    simp [export_mix, hni, hact, hfe]

/-- Witness for C5: a single non-muted track is the first (and only)
active track and is exported with its volume filter. -/
theorem C5_export_mix_active_tracks_witness :
    check_ffmpeg envAllGood = true ∧
      (export_mix envAllGood [trackA] "mp3" "high").invoked =
        [["ffmpeg", "-i", track_path_of_url trackA.url, "-af",
            "volume=" ++ toString trackA.volume] ++
          get_quality_settings "mp3" "high" ++
          ["-y", "outputs/mix_" ++ envAllGood.uuid 0 ++ "." ++ "mp3"]] :=
  ⟨rfl,
    (C5_export_mix_active_tracks envAllGood [trackA] "mp3" "high" rfl).2.2.2
      trackA [] rfl rfl⟩

/-- C6: for every 4-band instrument split request (with the probe
succeeding and the scratch write succeeding), all four band commands are
attempted in order regardless of individual failures, the operation
reports success exactly when all four commands succeed, and the handler
deletes nothing but its own scratch input file (already-written outputs
are never deleted). -/
theorem success_count_eq_countP (env : Env) (l : List (List String)) (n : Nat) :
    l.foldl (fun n cmd => if run_ffmpeg_command env cmd 180 then n + 1 else n) n =
      n + l.countP (fun cmd => run_ffmpeg_command env cmd 180) := by
  induction l generalizing n with
  | nil => simp
  | cons c cs ih =>
    simp only [List.foldl_cons, List.countP_cons, ih]
    by_cases hc : run_ffmpeg_command env c 180 = true
    · simp only [if_pos hc]
      omega
    · simp only [if_neg hc]
      omega

theorem instruments_count_lt_iff (env : Env) (fileExt : String) :
    (instrumentsCommands env fileExt).foldl
        (fun n cmd => if run_ffmpeg_command env cmd 180 then n + 1 else n) 0 < 4 ↔
      ¬ ∀ c ∈ instrumentsCommands env fileExt, run_ffmpeg_command env c 180 = true := by
  rw [success_count_eq_countP, Nat.zero_add]
  have hlen : (instrumentsCommands env fileExt).length = 4 := rfl
  have hle := List.countP_le_length
    (p := fun cmd => run_ffmpeg_command env cmd 180)
    (l := instrumentsCommands env fileExt)
  constructor
  · intro hlt hall
    have heq : (instrumentsCommands env fileExt).countP
        (fun cmd => run_ffmpeg_command env cmd 180) =
        (instrumentsCommands env fileExt).length :=
      List.countP_eq_length.mpr (by intro c hc; simp [hall c hc])
    omega
  · intro hnall
    rcases Nat.lt_or_ge ((instrumentsCommands env fileExt).countP
        (fun cmd => run_ffmpeg_command env cmd 180)) 4 with hc | hc
    · exact hc
    · exfalso
      apply hnall
      have heq : (instrumentsCommands env fileExt).countP
          (fun cmd => run_ffmpeg_command env cmd 180) =
          (instrumentsCommands env fileExt).length := by omega
      intro c hcm
      simpa using List.countP_eq_length.mp heq c hcm

theorem C6_instruments_all_or_nothing (env : Env) (fileExt : String)
    (h : check_ffmpeg env = true) (hr : env.readOk = true) (hw : env.writeOk = true) :
    (separate_instruments env fileExt).invoked = instrumentsCommands env fileExt ∧
    ((separate_instruments env fileExt).resp.isOk = true ↔
      ∀ c ∈ instrumentsCommands env fileExt, run_ffmpeg_command env c 180 = true) ∧
    (∀ p ∈ (separate_instruments env fileExt).deleted, p = tempInputName env fileExt) := by
  have hni : ¬(check_ffmpeg env = false) := by simp [h]
  have hnr : ¬(env.readOk = false) := by simp [hr]
  have hnw : ¬(env.writeOk = false) := by simp [hw]
  refine ⟨?_, ?_, ?_⟩
  · simp only [separate_instruments, instrumentsCore, finallyCleanup,
      if_neg hni, if_neg hnr, if_neg hnw]
    split <;> rfl
  · simp only [separate_instruments, instrumentsCore, finallyCleanup,
      if_neg hni, if_neg hnr, if_neg hnw]
    by_cases hlt : (instrumentsCommands env fileExt).foldl
        (fun n cmd => if run_ffmpeg_command env cmd 180 then n + 1 else n) 0 < 4
    · rw [if_pos hlt]
      exact iff_of_false (by simp [Resp.isOk])
        ((instruments_count_lt_iff env fileExt).mp hlt)
    · rw [if_neg hlt]
      exact iff_of_true rfl
        (not_not.mp fun hn => hlt ((instruments_count_lt_iff env fileExt).mpr hn))
  · simp only [separate_instruments, instrumentsCore, finallyCleanup,
      if_neg hni, if_neg hnr, if_neg hnw]
    split <;> simp

/-- Witness for C6 in a concrete world where all four commands
succeed. -/
theorem C6_instruments_all_or_nothing_witness :
    check_ffmpeg envAllGood = true ∧
      (separate_instruments envAllGood ".wav").invoked =
        instrumentsCommands envAllGood ".wav" :=
  ⟨rfl, (C6_instruments_all_or_nothing envAllGood ".wav" rfl rfl rfl).1⟩

/-- C1 counterexample: in a world where all four band commands exit
with status 0 but no output file exists on disk (size 0 everywhere), the
4-band split reports success and returns four output URLs even though
the corresponding files are missing and empty — the handler never
verifies its outputs. -/
theorem C1_counterexample :
    (separate_instruments envNoFiles ".wav").resp =
      Resp.ok [("vocals", "/outputs/vocals_u.wav"), ("drums", "/outputs/drums_u.wav"),
        ("bass", "/outputs/bass_u.wav"), ("other", "/outputs/other_u.wav")] ∧
    envNoFiles.fileExists "outputs/vocals_u.wav" = false ∧
    envNoFiles.fileSize "outputs/vocals_u.wav" = 0 := by
  exact ⟨rfl, rfl, rfl⟩

/-- C1 as amended: the cut, fade, export-mix and export-track handlers
report success only when their reported output file exists with size
greater than zero; the vocal/music split verifies only that its two
outputs exist (a zero-byte output still reports success); the 4-band
split performs no output verification at all — it reports success based
solely on all four commands succeeding. -/
theorem C1_output_verification :
    (∀ (env : Env) (fileExt : String) (s e : ℚ),
      (cut_audio env fileExt s e).resp.isOk = true →
      env.fileExists ("outputs/" ++ ("cut_" ++ env.uuid 1 ++ ".wav")) = true ∧
      0 < env.fileSize ("outputs/" ++ ("cut_" ++ env.uuid 1 ++ ".wav"))) ∧
    (∀ (env : Env) (fileExt fade_type : String) (d : ℚ),
      (apply_fade env fileExt fade_type d).resp.isOk = true →
      env.fileExists ("outputs/" ++ ("fade_" ++ fade_type ++ "_" ++ env.uuid 1 ++ ".wav")) = true ∧
      0 < env.fileSize ("outputs/" ++ ("fade_" ++ fade_type ++ "_" ++ env.uuid 1 ++ ".wav"))) ∧
    (∀ (env : Env) (tracks : List TrackData) (format quality : String),
      (export_mix env tracks format quality).resp.isOk = true →
      env.fileExists ("outputs/" ++ ("mix_" ++ env.uuid 0 ++ "." ++ format)) = true ∧
      0 < env.fileSize ("outputs/" ++ ("mix_" ++ env.uuid 0 ++ "." ++ format))) ∧
    (∀ (env : Env) (track : TrackData) (format quality : String),
      (export_track env track format quality).resp.isOk = true →
      env.fileExists ("outputs/" ++ ("track_" ++ env.uuid 0 ++ "." ++ format)) = true ∧
      0 < env.fileSize ("outputs/" ++ ("track_" ++ env.uuid 0 ++ "." ++ format))) ∧
    (∀ (env : Env) (fileExt : String),
      (separate_vocal_music env fileExt).resp.isOk = true →
      env.fileExists ("outputs/" ++ ("vocal_" ++ env.uuid 1 ++ ".wav")) = true ∧
      env.fileExists ("outputs/" ++ ("music_" ++ env.uuid 2 ++ ".wav")) = true) ∧
    (∀ (env : Env) (fileExt : String),
      (separate_instruments env fileExt).resp.isOk = true →
      ∀ c ∈ (separate_instruments env fileExt).invoked,
        run_ffmpeg_command env c 180 = true) := by
  refine ⟨?_, ?_, ?_, ?_, ?_, ?_⟩
  · intro env fileExt s e
    simp only [cut_audio, finallyCleanup, cutCore]
    repeat' split
    all_goals
      simp_all [Resp.isOk, engineUnavailable, Nat.pos_iff_ne_zero]
  · intro env fileExt fade_type d
    simp only [apply_fade, finallyCleanup, fadeCore]
    repeat' split
    all_goals
      simp_all [Resp.isOk, engineUnavailable, Nat.pos_iff_ne_zero]
  · intro env tracks format quality
    simp only [export_mix]
    repeat' split
    all_goals
      simp_all [Resp.isOk, engineUnavailable, Nat.pos_iff_ne_zero]
  · intro env track format quality
    simp only [export_track]
    repeat' split
    all_goals
      simp_all [Resp.isOk, engineUnavailable, Nat.pos_iff_ne_zero]
  · intro env fileExt
    simp only [separate_vocal_music, finallyCleanup, vocalMusicCore]
    repeat' split
    all_goals
      simp_all [Resp.isOk, engineUnavailable]
  · intro env fileExt
    by_cases h1 : check_ffmpeg env = false
    · simp [separate_instruments, instrumentsCore, finallyCleanup, h1,
        Resp.isOk, engineUnavailable]
    by_cases h2 : env.readOk = false
    · simp [separate_instruments, instrumentsCore, finallyCleanup, h1, h2, Resp.isOk]
    by_cases h3 : env.writeOk = false
    · simp [separate_instruments, instrumentsCore, finallyCleanup, h1, h2, h3, Resp.isOk]
    simp only [separate_instruments, instrumentsCore, finallyCleanup,
      if_neg h1, if_neg h2, if_neg h3]
    by_cases hlt : (instrumentsCommands env fileExt).foldl
        (fun n cmd => if run_ffmpeg_command env cmd 180 then n + 1 else n) 0 < 4
    · rw [if_pos hlt]
      intro hf
      exact absurd hf (by simp [Resp.isOk])
    · rw [if_neg hlt]
      intro _
      exact not_not.mp fun hn => hlt ((instruments_count_lt_iff env fileExt).mpr hn)

/-- Witness for the amended C1: in a world where everything succeeds a
cut reports success and its output file exists with positive size. -/
theorem C1_output_verification_witness :
    (cut_audio envAllGood ".wav" 0 1).resp.isOk = true ∧
      envAllGood.fileExists ("outputs/" ++ ("cut_" ++ envAllGood.uuid 1 ++ ".wav")) = true ∧
      0 < envAllGood.fileSize ("outputs/" ++ ("cut_" ++ envAllGood.uuid 1 ++ ".wav")) :=
  ⟨rfl, C1_output_verification.1 envAllGood ".wav" 0 1 rfl⟩

theorem data_append (s t : String) : (s ++ t).data = s.data ++ t.data := rfl

theorem isPrefixOf_append_self (l t : List Char) : l.isPrefixOf (l ++ t) = true := by
  induction l with
  | nil => simp [List.isPrefixOf]
  | cons a l ih => simp [List.isPrefixOf, ih]

theorem replaceLoop_of_not_occur (o : Char) (os new : List Char) :
    ∀ (fuel : Nat) (s : List Char), s.length ≤ fuel → hasOccur o os s = false →
      replaceLoop o os new fuel s = s := by
  intro fuel
  induction fuel with
  | zero =>
    intro s hs _
    cases s with
    | nil => rfl
    | cons c cs => simp at hs
  | succ fuel ih =>
    intro s hs hocc
    cases s with
    | nil => rfl
    | cons c cs =>
      simp only [hasOccur, Bool.or_eq_false_iff] at hocc
      simp only [replaceLoop]
      rw [if_neg (by simp [hocc.1])]
      rw [ih cs (by simpa using hs) hocc.2]

theorem replaceLoop_append_self (o : Char) (os new rest : List Char) (fuel : Nat)
    (hfuel : os.length + rest.length ≤ fuel)
    (hocc : hasOccur o os rest = false) :
    replaceLoop o os new (fuel + 1) ((o :: os) ++ rest) = new ++ rest := by
  have hpre : (o :: os).isPrefixOf (o :: (os ++ rest)) = true :=
    isPrefixOf_append_self (o :: os) rest
  show replaceLoop o os new (fuel + 1) (o :: (os ++ rest)) = new ++ rest
  simp only [replaceLoop, if_pos hpre, List.drop_left]
  rw [replaceLoop_of_not_occur o os new fuel rest (by omega) hocc]

theorem pyReplace_eq_of_not_occur (s old new : String)
    (hocc : hasOccurS old s = false) :
    pyReplace s old new = s := by
  unfold pyReplace
  cases hd : old.data with
  | nil => rfl
  | cons o os =>
    have hocc' : hasOccur o os s.data = false := by
      unfold hasOccurS at hocc
      rw [hd] at hocc
      exact hocc
    show String.mk (replaceLoop o os new.data s.data.length s.data) = s
    rw [replaceLoop_of_not_occur o os new.data s.data.length s.data (Nat.le_refl _) hocc']

theorem pyReplace_append (p rest new : String)
    (hne : p.data ≠ []) (hocc : hasOccurS p rest = false) :
    pyReplace (p ++ rest) p new = new ++ rest := by
  unfold pyReplace
  cases hd : p.data with
  | nil => exact absurd hd hne
  | cons o os =>
    have hocc' : hasOccur o os rest.data = false := by
      unfold hasOccurS at hocc
      rw [hd] at hocc
      exact hocc
    show String.mk
        (replaceLoop o os new.data (p ++ rest).data.length (p ++ rest).data) =
      new ++ rest
    have hdata : (p ++ rest).data = (o :: os) ++ rest.data := by
      rw [data_append, hd]
    rw [hdata]
    have hlen : ((o :: os) ++ rest.data).length = (os.length + rest.data.length) + 1 := by
      simp only [List.length_append, List.length_cons]
      omega
    rw [hlen,
      replaceLoop_append_self o os new.data rest.data _ (Nat.le_refl _) hocc']
    rfl

/-- C3 counterexample: the export handlers resolve
`"/uploads/a/outputs/b"` to `"uploads/aoutputs/b"` — the `/outputs/`
occurrence in the middle of the URL is rewritten as well, so the rest of
the URL is not left unchanged, while the spec-described prefix
substitution yields `"uploads/a/outputs/b"`. -/
theorem C3_counterexample :
    track_path_of_url "/uploads/a/outputs/b" = "uploads/aoutputs/b" ∧
    specPrefixResolve "/uploads/a/outputs/b" = some "uploads/a/outputs/b" ∧
    track_path_of_url "/uploads/a/outputs/b" ≠ "uploads/a/outputs/b" := by
  refine ⟨by decide, by decide, by decide⟩

/-- C3 as amended: the export handlers resolve a track URL by replacing
every occurrence of `/uploads/` with `uploads/` and then every
occurrence of `/outputs/` with `outputs/`, anywhere in the URL.  This
coincides with recognizing the leading mount prefix and substituting the
corresponding local directory, leaving the rest unchanged, exactly when
the rest of the URL contains no further occurrence of either mount
marker. -/
theorem C3_prefix_resolution (rest : String) :
    (hasOccurS "/uploads/" rest = false →
     hasOccurS "/outputs/" ("uploads/" ++ rest) = false →
     track_path_of_url ("/uploads/" ++ rest) = "uploads/" ++ rest) ∧
    (hasOccurS "/uploads/" ("/outputs/" ++ rest) = false →
     hasOccurS "/outputs/" rest = false →
     track_path_of_url ("/outputs/" ++ rest) = "outputs/" ++ rest) := by
  constructor
  · intro h1 h2
    unfold track_path_of_url
    rw [pyReplace_append "/uploads/" rest "uploads/" (by decide) h1]
    exact pyReplace_eq_of_not_occur _ _ _ h2
  · intro h1 h2
    unfold track_path_of_url
    rw [pyReplace_eq_of_not_occur _ _ _ h1]
    exact pyReplace_append "/outputs/" rest "outputs/" (by decide) h2

/-- Witness for the amended C3 on a well-formed uploads URL. -/
theorem C3_prefix_resolution_witness :
    hasOccurS "/uploads/" "song.wav" = false ∧
      track_path_of_url ("/uploads/" ++ "song.wav") = "uploads/" ++ "song.wav" :=
  ⟨by decide, (C3_prefix_resolution "song.wav").1 (by decide) (by decide)⟩

/-- C10: for every format other than "mp3" and "wav" the
quality-settings function returns the empty parameter list; export
requests with such a format are not rejected — the transform command is
run with no codec parameters and the raw client-supplied format string
becomes the output file's extension (in the command's output path and in
the reported URL). -/
theorem C10_unrecognized_format (format : String)
    (hm : format ≠ "mp3") (hw : format ≠ "wav") :
    (∀ quality, get_quality_settings format quality = []) ∧
    (∀ (env : Env) (track : TrackData) (quality : String),
      check_ffmpeg env = true →
      env.fileExists (track_path_of_url track.url) = true →
      (export_track env track format quality).invoked =
        [["ffmpeg", "-i", track_path_of_url track.url, "-af",
            "volume=" ++ toString track.volume,
            "-y", "outputs/" ++ ("track_" ++ env.uuid 0 ++ "." ++ format)]] ∧
      ((export_track env track format quality).resp.isOk = true →
        (export_track env track format quality).resp =
          Resp.ok [("url", "/outputs/" ++ ("track_" ++ env.uuid 0 ++ "." ++ format))])) ∧
    (∀ (env : Env) (tracks : List TrackData) (t : TrackData) (ts : List TrackData)
        (quality : String),
      check_ffmpeg env = true →
      activeTracks tracks = t :: ts →
      env.fileExists (track_path_of_url t.url) = true →
      (export_mix env tracks format quality).invoked =
        [["ffmpeg", "-i", track_path_of_url t.url, "-af",
            "volume=" ++ toString t.volume,
            "-y", "outputs/" ++ ("mix_" ++ env.uuid 0 ++ "." ++ format)]]) := by
  have hqs : ∀ quality, get_quality_settings format quality = [] := by
    intro q
    unfold get_quality_settings
    rw [if_neg hm, if_neg hw]
  refine ⟨hqs, ?_, ?_⟩
  · intro env track quality h1 hfe
    have hni : ¬(check_ffmpeg env = false) := by simp [h1]
    have hnf : ¬(env.fileExists (track_path_of_url track.url) = false) := by simp [hfe]
    constructor
    · simp [export_track, hni, hnf, hqs]
    · intro hok
      revert hok
      simp only [export_track, hqs, List.nil_append, List.append_nil]
      rw [if_neg hni, if_neg hnf]
      repeat' split
      all_goals simp_all [Resp.isOk]
  · intro env tracks t ts quality h1 hact hfe
    have hni : ¬(check_ffmpeg env = false) := by simp [h1]
    simp [export_mix, hni, hact, hfe, hqs]
    apply String.ext
    have hsplit : ("outputs/mix_" : String).data = "outputs/".data ++ "mix_".data := rfl
    simp [data_append, hsplit, List.append_assoc]

/-- Witness for C10 at the concrete unrecognized format "ogg". -/
theorem C10_unrecognized_format_witness :
    ("ogg" : String) ≠ "mp3" ∧
    get_quality_settings "ogg" "high" = [] ∧
    (export_track envAllGood trackA "ogg" "high").invoked =
      [["ffmpeg", "-i", track_path_of_url trackA.url, "-af",
          "volume=" ++ toString trackA.volume,
          "-y", "outputs/" ++ ("track_" ++ envAllGood.uuid 0 ++ "." ++ "ogg")]] :=
  ⟨by decide, (C10_unrecognized_format "ogg" (by decide) (by decide)).1 "high",
    ((C10_unrecognized_format "ogg" (by decide) (by decide)).2.1 envAllGood trackA
      "high" rfl rfl).1⟩

end AudioEditor
